import Mathlib

deriving instance DecidableEq for Except

/-!
Shallow embedding of the call engine of `src/src/call.rs` (evs-cli).

Pure argument handling (`parse_integer_param`, the per-parameter conversion of
`build_json_from_params`) is translated directly.  The stateful/async flow
(`emulate_locally`, `send_message_and_wait`, `process_message` and the
debug-replay block of `call_contract_with_client`) is embedded by making every
external effect (SDK calls, network queries, clocks, serialization) an oracle
packed in an `Env` record; each embedded function returns its `Result` value
together with the ordered list of observable actions (`Event`) it performed.
A `none` overall result models a Rust panic (a failing `unwrap`).
-/

namespace EvsCall

/-- The configuration flags of `crate::config::Config` that `call.rs` reads. -/
structure Config where
  lifetime : Nat
  async_call : Bool
  local_run : Bool
  debug_fail : Bool
  is_json : Bool
deriving DecidableEq, Repr

/-- Fee breakdown of `ton_client::tvm::run_executor` (`res.fees`), the six
fields printed by `emulate_locally` (src/src/call.rs:173-181). -/
structure Fees where
  in_msg_fwd_fee : Nat
  storage_fee : Nat
  gas_fee : Nat
  out_msgs_fwd_fee : Nat
  total_account_fees : Nat
  total_output : Nat
deriving DecidableEq, Repr

/-- `ton_client::error::ClientError`: a numeric `code` plus its alternate
display string (what `format!` with `:#` prints). -/
structure ClientError where
  code : Nat
  display : String
deriving DecidableEq, Repr

/-- The `serde_json::Value` shapes the engine produces: `Value::Null`,
the empty object `json!` of no fields, or some decoded output. -/
inductive Value where
  | null
  | emptyObj
  | json (s : String)
deriving DecidableEq, Repr

/-- `ton_client::abi::FunctionHeader` restricted to the two fields
`call_contract_with_client` sets (src/src/call.rs:299-303). -/
structure FunctionHeader where
  expire : Option Nat
  time : Option Nat
deriving DecidableEq, Repr

/-- Observable actions of one invocation, in order of occurrence. -/
inductive Event where
  | encodeMessage
  | queryAccount (addr : String)
  | runExecutor (boc : String) (unlimited_balance : Option Bool)
  | sendMessage
  | waitForTransaction
  | processMessage
  | replayStarted
  | replayExecute
  | printed (s : String)
deriving DecidableEq, Repr

/-- Oracles for every external effect `call.rs` performs.  Reading the same
oracle twice models the Rust code calling the same external function twice in
one invocation (the environment is fixed for the invocation). -/
structure Env where
  now : Except String Nat
  now_ms : Nat
  loadAbi : Except String Unit
  prepareMessageParams : FunctionHeader → Except String Unit
  encodeMessage : Except String String
  queryAccountBoc : String → Except String String
  parseMsgAddress : String → Except String String
  serializeDummyAccount : String → Except String String
  runExecutor : String → String → Option Bool → Except String Fees
  sendMessage : String → Except String String
  waitForTransaction : String → String → Except String (Option Value)
  processMessage : Except ClientError Value
  constructAccount : String → Except String String
  constructConfigAccount : String → Except String String
  constructBlockchainConfig : String → Except String Unit
  constructMessage : String → Except String Unit
  replayExecute : Except String Unit

/-- Modelled from the spec: `crate::helpers::SDK_EXECUTION_ERROR_CODE` is not
under src/; it is the designated remote-execution error code distinguishing a
logical on-chain rejection from a transport failure. -/
def SDK_EXECUTION_ERROR_CODE : Nat := 414

/-- Modelled from the spec: `crate::replay::CONFIG_ADDR` is not under src/; it
is the well-known address of the network configuration account. -/
def CONFIG_ADDR : String :=
  "-1:5555555555555555555555555555555555555555555555555555555555555555"

/-- Modelled from the spec: `crate::helpers::TRACE_PATH` is not under src/; it
is the fixed path of the diagnostic trace sink. -/
def TRACE_PATH : String := "trace.log"

/-- The six fee lines printed in fee mode (src/src/call.rs:174-181). -/
def feeLines (fees : Fees) : List Event :=
  [.printed "\x7b",
   .printed ("  \"in_msg_fwd_fee\": \"" ++ toString fees.in_msg_fwd_fee ++ "\","),
   .printed ("  \"storage_fee\": \"" ++ toString fees.storage_fee ++ "\","),
   .printed ("  \"gas_fee\": \"" ++ toString fees.gas_fee ++ "\","),
   .printed ("  \"out_msgs_fwd_fee\": \"" ++ toString fees.out_msgs_fwd_fee ++ "\","),
   .printed ("  \"total_account_fees\": \"" ++ toString fees.total_account_fees ++ "\","),
   .printed ("  \"total_output\": \"" ++ toString fees.total_output ++ "\""),
   .printed "\x7d"]

/-- Shallow embedding of `emulate_locally` (src/src/call.rs:127-186).
The account boc is fetched; on failure, fee mode synthesizes a dummy account
at the (decoded) target address, non-fee mode returns the fetch error.  The
executor then runs with `unlimited_balance` set exactly in fee mode; fee mode
prints the six fee fields, pre-flight mode prints the success line. -/
def emulate_locally (env : Env) (addr : String) (msg : String) (is_fee : Bool) :
    Except String Unit × List Event :=
  let ub : Option Bool := if is_fee then some true else none
  let run : String → Except String Unit × List Event := fun state =>
    match env.runExecutor msg state ub with
    | .error e => (.error e, [.queryAccount addr, .runExecutor state ub])
    | .ok fees =>
      if is_fee then
        (.ok (), [.queryAccount addr, .runExecutor state ub] ++ feeLines fees)
      else
        (.ok (), [.queryAccount addr, .runExecutor state ub,
          .printed "Local run succeeded. Executing onchain."])
  match env.queryAccountBoc addr with
  | .error e =>
    if is_fee then
      match env.parseMsgAddress addr with
      | .error pe => (.error ("couldn't decode address: " ++ pe), [.queryAccount addr])
      | .ok a =>
        match env.serializeDummyAccount a with
        | .error se => (.error se, [.queryAccount addr])
        | .ok state => run state
    else
      (.error e, [.queryAccount addr])
  | .ok state => run state

/-- Shallow embedding of `send_message_and_wait` (src/src/call.rs:188-229):
submit, then wait and decode unless `async_call`. -/
def send_message_and_wait (env : Env) (config : Config) (msg : String) :
    Except String Value × List Event :=
  let evs0 : List Event := if !config.is_json then [.printed "Processing... "] else []
  match env.sendMessage msg with
  | .error e => (.error e, evs0 ++ [.sendMessage])
  | .ok shard =>
    if !config.async_call then
      match env.waitForTransaction msg shard with
      | .error e => (.error e, evs0 ++ [.sendMessage, .waitForTransaction])
      | .ok decoded =>
        (.ok (decoded.getD Value.emptyObj), evs0 ++ [.sendMessage, .waitForTransaction])
    else
      (.ok Value.emptyObj, evs0 ++ [.sendMessage])

/-- The header built at src/src/call.rs:297-303: `expire` is seconds-based
(`config.lifetime + now()`), `time` is `now_ms()` (milliseconds). -/
def compose_header (config : Config) (nowS : Nat) (nowMs : Nat) : FunctionHeader :=
  { expire := some (config.lifetime + nowS), time := some nowMs }

/-- Shallow embedding of the `process_message` call and the debug-replay block
(src/src/call.rs:371-419).  `dump` is the pre-captured diagnostic tuple
(account boc, encoded message, captured `now_ms`); the blockchain config part
is folded into the `constructBlockchainConfig`/`replayExecute` oracles.  The
replay branch fires exactly on `debug_fail` with the SDK execution error code;
the `dump.unwrap()` of the source is the `none => none` (panic) case. -/
def run_process (env : Env) (config : Config)
    (dump : Option (String × String × Nat)) (evs : List Event) :
    Option (Except String Value × List Event) :=
  match env.processMessage with
  | .ok v => some (.ok v, evs ++ [.processMessage])
  | .error ce =>
    if config.debug_fail && (ce.code == SDK_EXECUTION_ERROR_CODE) then
      match dump with
      | none => none
      | some (_account, m, _nowMs) =>
        let evs1 := evs ++ [.processMessage, .replayStarted] ++
          (if !config.is_json then [.printed "Execution failed. Starting debug..."] else [])
        match env.constructMessage m with
        | .error e => some (.error ("failed to construct message: " ++ e), evs1)
        | .ok _ =>
          let msg_string := match env.replayExecute with
            | .ok _ => "Debug finished."
            | .error e => "Debug failed: " ++ e
          let evs2 := evs1 ++ [.replayExecute] ++
            (if !config.is_json then
              [.printed msg_string, .printed ("Log saved to " ++ TRACE_PATH)] else [])
          some (.error ce.display, evs2)
    else
      some (.error ce.display, evs ++ [.processMessage])

/-- Shallow embedding of src/src/call.rs:339-371: the expire print, the
`debug_fail` diagnostic pre-capture (`dump`, including the `message.unwrap()`),
then `process_message` and the replay block via `run_process`. -/
def finish_call (env : Env) (config : Config) (addr : String)
    (message : Option String) (expire_at : Nat) (evs : List Event) :
    Option (Except String Value × List Event) :=
  let evs := evs ++
    (if !config.is_json then [Event.printed ("Expire at: " ++ toString expire_at)] else [])
  if config.debug_fail then
    match env.queryAccountBoc addr with
    | .error e => some (.error e, evs ++ [.queryAccount addr])
    | .ok acc_boc =>
      match env.constructAccount acc_boc with
      | .error e =>
        some (.error ("Failed to construct account: " ++ e), evs ++ [.queryAccount addr])
      | .ok account =>
        match env.queryAccountBoc CONFIG_ADDR with
        | .error e =>
          some (.error e, evs ++ [.queryAccount addr, .queryAccount CONFIG_ADDR])
        | .ok cfg_boc =>
          match env.constructConfigAccount cfg_boc with
          | .error e =>
            some (.error ("Failed to construct config account: " ++ e),
              evs ++ [.queryAccount addr, .queryAccount CONFIG_ADDR])
          | .ok config_acc =>
            match env.constructBlockchainConfig config_acc with
            | .error e =>
              some (.error e, evs ++ [.queryAccount addr, .queryAccount CONFIG_ADDR])
            | .ok _ =>
              match message with
              | none => none
              | some m =>
                run_process env config (some (account, m, env.now_ms))
                  (evs ++ [.queryAccount addr, .queryAccount CONFIG_ADDR])
  else
    run_process env config none evs

/-- The tail of the `needs_encoded_msg` branch (src/src/call.rs:328-334): the
async early return, else fall through carrying `Some(msg)`. -/
def after_encode (env : Env) (config : Config) (addr : String) (msg : String)
    (expire_at : Nat) (evs : List Event) :
    Option (Except String Value × List Event) :=
  if config.async_call then
    let r := send_message_and_wait env config msg
    some (r.1, evs ++ r.2)
  else
    finish_call env config addr (some msg) expire_at evs

/-- Shallow embedding of `call_contract_with_client` (src/src/call.rs:285-420). -/
def call_contract_with_client (env : Env) (config : Config) (addr : String)
    (is_fee : Bool) : Option (Except String Value × List Event) :=
  match env.loadAbi with
  | .error e => some (.error e, [])
  | .ok _ =>
  match env.now with
  | .error e => some (.error e, [])
  | .ok nowS =>
  let expire_at := config.lifetime + nowS
  match env.prepareMessageParams (compose_header config nowS env.now_ms) with
  | .error e => some (.error e, [])
  | .ok _ =>
  if is_fee || config.async_call || config.local_run || config.debug_fail then
    match env.encodeMessage with
    | .error e =>
      some (.error ("failed to create inbound message: " ++ e), [.encodeMessage])
    | .ok msg =>
      if config.local_run || is_fee then
        let em := emulate_locally env addr msg is_fee
        match em.1 with
        | .error e => some (.error e, .encodeMessage :: em.2)
        | .ok _ =>
          if is_fee then some (.ok .null, .encodeMessage :: em.2)
          else after_encode env config addr msg expire_at (.encodeMessage :: em.2)
      else
        after_encode env config addr msg expire_at [.encodeMessage]
  else
    finish_call env config addr none expire_at []

/-- The event trace of a finished invocation (`none`, a panic, has no trace). -/
def traceOf (r : Option (Except String Value × List Event)) : List Event :=
  match r with
  | none => []
  | some p => p.2

/-- The value an invocation returned, if it did not panic. -/
def resultOf (r : Option (Except String Value × List Event)) :
    Option (Except String Value) :=
  r.map Prod.fst

/-- Does `process_message`'s outcome carry the designated remote-execution
error code (the `res.is_err() && code == SDK_EXECUTION_ERROR_CODE` test at
src/src/call.rs:373-374)? -/
def isSdkExecError : Except ClientError Value → Bool
  | .error e => e.code == SDK_EXECUTION_ERROR_CODE
  | .ok _ => false

/-- The string `res.map_err` produces from the submission outcome
(src/src/call.rs:419). -/
def errDisplay : Except ClientError Value → String
  | .error e => e.display
  | .ok _ => ""

/-- Decimal digit parser (structural, so that proofs can evaluate it):
`decDigitsAux cs acc` folds the digits of `cs` onto `acc`, failing on any
non-digit character. -/
def decDigitsAux : List Char → Nat → Option Nat
  | [], acc => some acc
  | c :: cs, acc =>
    if c.isDigit then decDigitsAux cs (acc * 10 + (c.toNat - 48)) else none

/-- Parse a non-empty all-digit string as a natural number. -/
def strToNat (s : String) : Option Nat :=
  match s.data with
  | [] => none
  | cs => decDigitsAux cs 0

/-- Modelled from the spec: `crate::convert::convert_token` is not under src/.
Per the spec, a token literal is rescaled exactly by the chain's fixed-point
factor of 1_000_000_000, with no rounding; we model it on decimal
(digit-only) literals. -/
def convert_token (amount : String) : Except String String :=
  match strToNat amount with
  | some n => .ok (toString (n * 1000000000))
  | none => .error ("failed to parse token amount: " ++ amount)

/-- Rust `str::trim_matches` with the double-quote character: strip all
leading and trailing quote characters. -/
def trimMatchesQuote (s : String) : String :=
  String.mk (((s.data.dropWhile (fun c => c == '"')).reverse.dropWhile
    (fun c => c == '"')).reverse)

/-- Rust `str::trim_end_matches` with the character `T`: strip all trailing
`T` characters. -/
def trimEndMatchesT (s : String) : String :=
  String.mk ((s.data.reverse.dropWhile (fun c => c == 'T')).reverse)

/-- Rust `str::ends_with` for the character `T`. -/
def endsWithT (s : String) : Bool :=
  match s.data.getLast? with
  | some c => c == 'T'
  | none => false

/-- Shallow embedding of `parse_integer_param` (src/src/call.rs:73-81). -/
def parse_integer_param (value : String) : Except String String :=
  let value := trimMatchesQuote value
  if endsWithT value then
    convert_token (trimEndMatchesT value)
  else
    .ok value

/-- `ton_abi::ParamType` restricted to the cases `build_json_from_params`
distinguishes (src/src/call.rs:100-120). -/
inductive ParamType where
  | uint (size : Nat)
  | int (size : Nat)
  | array (elem : ParamType)
  | other (name : String)
deriving DecidableEq, Repr

/-- The JSON value placed in `params_json` for one input parameter. -/
inductive JValue where
  | str (s : String)
  | arr (xs : List String)
deriving DecidableEq, Repr

/-- Rust `value.split` on the characters `,` `[` `]`, keeping empty pieces. -/
def splitDelimsAux : List Char → List Char → List String
  | [], acc => [String.mk acc.reverse]
  | c :: rest, acc =>
    if c == ',' || c == '[' || c == ']' then
      String.mk acc.reverse :: splitDelimsAux rest []
    else
      splitDelimsAux rest (c :: acc)

def splitDelims (s : String) : List String :=
  splitDelimsAux s.data []

/-- Shallow embedding of the per-parameter value conversion inside
`build_json_from_params` (src/src/call.rs:100-120): scalar integers go
through `parse_integer_param`; arrays of unsigned integers are split on
`,`/`[`/`]` and each non-empty piece goes through `parse_integer_param`;
every other kind (including arrays of signed integers) is passed through
as the raw string. -/
def convert_input_value (kind : ParamType) (value : String) : Except String JValue :=
  match kind with
  | .uint _ => (parse_integer_param value).map JValue.str
  | .int _ => (parse_integer_param value).map JValue.str
  | .array elem =>
    match elem with
    | .uint _ =>
      let pieces := (splitDelims value).filter (fun i => !i.isEmpty)
      (pieces.mapM parse_integer_param).map JValue.arr
    | _ => .ok (.str value)
  | .other _ => .ok (.str value)

/-- Events that `emulate_locally` can emit: account query, executor run,
console output.  Network submission events are not among them. -/
def localEvent : Event → Bool
  | .queryAccount _ => true
  | .runExecutor _ _ => true
  | .printed _ => true
  | _ => false

/-- Events that `send_message_and_wait` can emit. -/
def smwEvent : Event → Bool
  | .printed _ => true
  | .sendMessage => true
  | .waitForTransaction => true
  | _ => false

/-- A concrete environment in which every external service succeeds. -/
def okEnv : Env where
  now := .ok 1700000000
  now_ms := 1700000000000
  loadAbi := .ok ()
  prepareMessageParams := fun _ => .ok ()
  encodeMessage := .ok "MSGB64"
  queryAccountBoc := fun _ => .ok "ACCBOC"
  parseMsgAddress := fun a => .ok a
  serializeDummyAccount := fun _ => .ok "DUMMYBOC"
  runExecutor := fun _ _ _ => .ok ⟨1, 2, 3, 4, 10, 0⟩
  sendMessage := fun _ => .ok "SHARD"
  waitForTransaction := fun _ _ => .ok (some (.json "OUT"))
  processMessage := .ok (.json "OUT")
  constructAccount := fun b => .ok b
  constructConfigAccount := fun b => .ok b
  constructBlockchainConfig := fun _ => .ok ()
  constructMessage := fun _ => .ok ()
  replayExecute := .ok ()

/-- Default configuration: 60 s lifetime, all flags off. -/
def cfgDefault : Config where
  lifetime := 60
  async_call := false
  local_run := false
  debug_fail := false
  is_json := false

/-- `cfgDefault` with the pre-flight `local_run` flag set. -/
def cfgLocal : Config := { cfgDefault with local_run := true }

/-- `cfgDefault` with the diagnostic `debug_fail` flag set. -/
def cfgDbg : Config := { cfgDefault with debug_fail := true }

/-- `cfgDefault` with the fire-and-forget `async_call` flag set. -/
def cfgAsync : Config := { cfgDefault with async_call := true }

/-- `okEnv` but the target account cannot be fetched. -/
def envNoAcc : Env := { okEnv with queryAccountBoc := fun _ => .error "account not found" }

/-- `okEnv` but submission fails with the remote-execution error code and the
replay cannot reconstruct the message from its serialized form. -/
def envBadReplayMsg : Env :=
  { okEnv with
      processMessage := .error ⟨SDK_EXECUTION_ERROR_CODE, "ORIG"⟩
      constructMessage := fun _ => .error "bad b64" }

/-- `okEnv` but submission fails with the remote-execution error code and the
instrumented replay executor itself fails. -/
def envReplayFails : Env :=
  { okEnv with
      processMessage := .error ⟨SDK_EXECUTION_ERROR_CODE, "ORIG"⟩
      replayExecute := .error "vm trap" }

/-! ### Helper lemmas about the traces of the embedded components -/

theorem traceOf_none : traceOf none = [] := rfl

theorem traceOf_some (p : Except String Value × List Event) : traceOf (some p) = p.2 := rfl

theorem resultOf_none : resultOf none = none := rfl

theorem resultOf_some (p : Except String Value × List Event) :
    resultOf (some p) = some p.1 := rfl

theorem emulate_events_local (env : Env) (addr msg : String) (f : Bool) :
    ∀ e ∈ (emulate_locally env addr msg f).2, localEvent e = true := by
  unfold emulate_locally
  dsimp only
  repeat' split
  all_goals simp [feeLines, localEvent]

theorem not_mem_emulate (env : Env) (addr msg : String) (f : Bool) (e : Event)
    (he : localEvent e = false) : e ∉ (emulate_locally env addr msg f).2 := by
  intro h
  have := emulate_events_local env addr msg f e h
  rw [he] at this
  exact Bool.false_ne_true this

theorem smw_events (env : Env) (config : Config) (m : String) :
    ∀ e ∈ (send_message_and_wait env config m).2, smwEvent e = true := by
  unfold send_message_and_wait
  dsimp only
  repeat' split
  all_goals simp [smwEvent]

theorem not_mem_smw (env : Env) (config : Config) (m : String) (e : Event)
    (he : smwEvent e = false) : e ∉ (send_message_and_wait env config m).2 := by
  intro h
  have := smw_events env config m e h
  rw [he] at this
  exact Bool.false_ne_true this

theorem smw_async_no_wait (env : Env) (config : Config) (m : String)
    (ha : config.async_call = true) :
    Event.waitForTransaction ∉ (send_message_and_wait env config m).2 := by
  unfold send_message_and_wait
  dsimp only
  split <;> simp_all

theorem replay_not_mem_emulate (env : Env) (addr msg : String) (f : Bool) :
    Event.replayStarted ∉ (emulate_locally env addr msg f).2 :=
  not_mem_emulate env addr msg f _ rfl

theorem pm_not_mem_emulate (env : Env) (addr msg : String) (f : Bool) :
    Event.processMessage ∉ (emulate_locally env addr msg f).2 :=
  not_mem_emulate env addr msg f _ rfl

theorem send_not_mem_emulate (env : Env) (addr msg : String) (f : Bool) :
    Event.sendMessage ∉ (emulate_locally env addr msg f).2 :=
  not_mem_emulate env addr msg f _ rfl

theorem wait_not_mem_emulate (env : Env) (addr msg : String) (f : Bool) :
    Event.waitForTransaction ∉ (emulate_locally env addr msg f).2 :=
  not_mem_emulate env addr msg f _ rfl

theorem replay_not_mem_smw (env : Env) (config : Config) (m : String) :
    Event.replayStarted ∉ (send_message_and_wait env config m).2 :=
  not_mem_smw env config m _ rfl

theorem pm_not_mem_smw (env : Env) (config : Config) (m : String) :
    Event.processMessage ∉ (send_message_and_wait env config m).2 :=
  not_mem_smw env config m _ rfl

theorem run_process_isSome (env : Env) (config : Config)
    (dump : Option (String × String × Nat)) (evs : List Event)
    (h : config.debug_fail = true → dump.isSome = true) :
    (run_process env config dump evs).isSome = true := by
  unfold run_process
  dsimp only
  repeat' split
  all_goals simp_all

theorem run_process_pm_mem (env : Env) (config : Config)
    (dump : Option (String × String × Nat)) (evs : List Event) :
    Event.processMessage ∈ traceOf (run_process env config dump evs) ↔
      (run_process env config dump evs).isSome = true := by
  unfold run_process
  dsimp only
  repeat' split
  all_goals simp_all [traceOf_some, traceOf_none]

theorem run_process_replay_mem (env : Env) (config : Config)
    (dump : Option (String × String × Nat)) (evs : List Event)
    (hre : Event.replayStarted ∉ evs) :
    Event.replayStarted ∈ traceOf (run_process env config dump evs) ↔
      (config.debug_fail = true ∧ isSdkExecError env.processMessage = true ∧
        dump.isSome = true) := by
  unfold run_process
  dsimp only
  repeat' split
  all_goals simp_all [traceOf_some, traceOf_none, isSdkExecError]

theorem finish_call_isSome (env : Env) (config : Config) (addr : String)
    (message : Option String) (expire_at : Nat) (evs : List Event)
    (h : config.debug_fail = true → message.isSome = true) :
    (finish_call env config addr message expire_at evs).isSome = true := by
  unfold finish_call
  dsimp only
  repeat' split
  all_goals simp_all [run_process_isSome]

theorem finish_call_replay_mem (env : Env) (config : Config) (addr : String)
    (message : Option String) (expire_at : Nat) (evs : List Event)
    (hre : Event.replayStarted ∉ evs) (hpm : Event.processMessage ∉ evs) :
    Event.replayStarted ∈ traceOf (finish_call env config addr message expire_at evs) ↔
      (config.debug_fail = true ∧ isSdkExecError env.processMessage = true ∧
        Event.processMessage ∈
          traceOf (finish_call env config addr message expire_at evs)) := by
  unfold finish_call
  dsimp only
  repeat' split
  all_goals simp_all [run_process_replay_mem, run_process_pm_mem, run_process_isSome,
    traceOf_some, traceOf_none]

theorem emulate_fee_ok (env : Env) (addr msg boc : String) (fees : Fees)
    (hq : env.queryAccountBoc addr = Except.ok boc)
    (hr : env.runExecutor msg boc (some true) = Except.ok fees) :
    emulate_locally env addr msg true =
      (Except.ok (), [Event.queryAccount addr, Event.runExecutor boc (some true)] ++
        feeLines fees) := by
  simp [emulate_locally, hq, hr]

/-! ### Claims -/

/-- C1, counterexample: with `local_run` set and `is_fee` false, a failing
local emulation (here: the account fetch fails) aborts the call with the
emulation error; no submission (`send_message` / `process_message`) happens,
contradicting "always continues to real network submission regardless of the
emulation outcome". -/
theorem C1_counterexample :
    call_contract_with_client envNoAcc cfgLocal "ADDR" false =
      some (Except.error "account not found",
        [Event.encodeMessage, Event.queryAccount "ADDR"]) ∧
    Event.sendMessage ∉ [Event.encodeMessage, Event.queryAccount "ADDR"] ∧
    Event.processMessage ∉ [Event.encodeMessage, Event.queryAccount "ADDR"] := by
  refine ⟨by decide, by decide, by decide⟩

/-- C1, amended: with `local_run` set and `is_fee` false, the emulation is a
pre-flight gate, not an advisory check: if it fails, the call returns the
emulation error and never submits; only a successful emulation continues to
real submission (the `?` at src/src/call.rs:323). -/
theorem C1_preflight_aborts (env : Env) (config : Config) (addr : String)
    (ns : Nat) (m err : String)
    (hl : config.local_run = true)
    (hla : env.loadAbi = Except.ok ())
    (hn : env.now = Except.ok ns)
    (hp : env.prepareMessageParams (compose_header config ns env.now_ms) = Except.ok ())
    (henc : env.encodeMessage = Except.ok m)
    (hem : (emulate_locally env addr m false).1 = Except.error err) :
    call_contract_with_client env config addr false =
      some (Except.error err,
        Event.encodeMessage :: (emulate_locally env addr m false).2) ∧
    Event.sendMessage ∉ traceOf (call_contract_with_client env config addr false) ∧
    Event.processMessage ∉ traceOf (call_contract_with_client env config addr false) := by
  have hcall : call_contract_with_client env config addr false =
      some (Except.error err,
        Event.encodeMessage :: (emulate_locally env addr m false).2) := by
    simp [call_contract_with_client, hla, hn, hp, henc, hl, hem]
  refine ⟨hcall, ?_, ?_⟩ <;> rw [hcall]
  · simp [traceOf_some, send_not_mem_emulate]
  · simp [traceOf_some, pm_not_mem_emulate]

/-- C1, witness for `C1_preflight_aborts` at a concrete failing emulation. -/
theorem C1_witness :
    call_contract_with_client envNoAcc cfgLocal "ADDR" false =
      some (Except.error "account not found",
        Event.encodeMessage :: (emulate_locally envNoAcc "ADDR" "MSGB64" false).2) ∧
    Event.sendMessage ∉ traceOf (call_contract_with_client envNoAcc cfgLocal "ADDR" false) ∧
    Event.processMessage ∉
      traceOf (call_contract_with_client envNoAcc cfgLocal "ADDR" false) :=
  C1_preflight_aborts envNoAcc cfgLocal "ADDR" 1700000000 "MSGB64" "account not found"
    rfl rfl rfl rfl rfl rfl

/-- C2: in fee mode the network submitter is never invoked (no `send_message`,
no `wait_for_transaction`, no `process_message`, on any path), and when the
local emulation succeeds the call prints the six fee fields and returns
`Value::Null`, stopping. -/
theorem C2_fee (env : Env) (config : Config) (addr : String) :
    (Event.sendMessage ∉ traceOf (call_contract_with_client env config addr true) ∧
     Event.waitForTransaction ∉ traceOf (call_contract_with_client env config addr true) ∧
     Event.processMessage ∉ traceOf (call_contract_with_client env config addr true)) ∧
    (∀ ns m boc fees,
      env.loadAbi = Except.ok () →
      env.now = Except.ok ns →
      env.prepareMessageParams (compose_header config ns env.now_ms) = Except.ok () →
      env.encodeMessage = Except.ok m →
      env.queryAccountBoc addr = Except.ok boc →
      env.runExecutor m boc (some true) = Except.ok fees →
      resultOf (call_contract_with_client env config addr true) =
        some (Except.ok Value.null) ∧
      (feeLines fees).IsSuffix
        (traceOf (call_contract_with_client env config addr true))) := by
  constructor
  · unfold call_contract_with_client
    dsimp only
    repeat' split
    all_goals simp_all [send_not_mem_emulate, wait_not_mem_emulate, pm_not_mem_emulate,
      traceOf_some, traceOf_none]
  · intro ns m boc fees hla hn hp henc hq hr
    have hem := emulate_fee_ok env addr m boc fees hq hr
    constructor
    · simp [call_contract_with_client, hla, hn, hp, henc, hem, resultOf]
    · simp only [call_contract_with_client, hla, hn, hp, henc, hem, traceOf]
      exact ⟨[Event.encodeMessage, Event.queryAccount addr,
        Event.runExecutor boc (some true)], by simp⟩

/-- C2, witness: concrete fee-mode run returning `Value::Null` with the six
fee lines as a suffix of the output. -/
theorem C2_witness :
    resultOf (call_contract_with_client okEnv cfgDefault "ADDR" true) =
      some (Except.ok Value.null) ∧
    (feeLines ⟨1, 2, 3, 4, 10, 0⟩).IsSuffix
      (traceOf (call_contract_with_client okEnv cfgDefault "ADDR" true)) :=
  (C2_fee okEnv cfgDefault "ADDR").2 1700000000 "MSGB64" "ACCBOC" ⟨1, 2, 3, 4, 10, 0⟩
    rfl rfl rfl rfl rfl rfl

/-- C3: the debug replay is entered if and only if diagnostics were
pre-captured (`debug_fail`), the submission (`process_message`) actually ran,
and its outcome is an error carrying the designated remote-execution error
code; any other error and any success leave the replay path untouched. -/
theorem C3_replay_iff (env : Env) (config : Config) (addr : String) (is_fee : Bool) :
    Event.replayStarted ∈ traceOf (call_contract_with_client env config addr is_fee) ↔
      (config.debug_fail = true ∧ isSdkExecError env.processMessage = true ∧
        Event.processMessage ∈
          traceOf (call_contract_with_client env config addr is_fee)) := by
  unfold call_contract_with_client after_encode
  dsimp only
  repeat' split
  all_goals
    simp_all [finish_call_replay_mem, replay_not_mem_emulate, pm_not_mem_emulate,
      replay_not_mem_smw, pm_not_mem_smw, traceOf_some, traceOf_none]

/-- C3, witness: the iff instantiated at a concrete environment in which the
submission fails with the remote-execution code and the replay runs. -/
theorem C3_witness :
    Event.replayStarted ∈
        traceOf (call_contract_with_client envReplayFails cfgDbg "ADDR" false) ↔
      (cfgDbg.debug_fail = true ∧ isSdkExecError envReplayFails.processMessage = true ∧
        Event.processMessage ∈
          traceOf (call_contract_with_client envReplayFails cfgDbg "ADDR" false)) :=
  C3_replay_iff envReplayFails cfgDbg "ADDR" false

/-- C4, counterexample: the replay is entered but the reconstruction of the
captured message fails (`Message::construct_from_base64`); the `?` at
src/src/call.rs:380 then returns that reconstruction error to the caller,
replacing the original submission error "ORIG". -/
theorem C4_counterexample :
    resultOf (call_contract_with_client envBadReplayMsg cfgDbg "ADDR" false) =
      some (Except.error "failed to construct message: bad b64") ∧
    Event.replayStarted ∈
      traceOf (call_contract_with_client envBadReplayMsg cfgDbg "ADDR" false) ∧
    resultOf (call_contract_with_client envBadReplayMsg cfgDbg "ADDR" false) ≠
      some (Except.error (errDisplay envBadReplayMsg.processMessage)) := by
  refine ⟨by decide, by decide, by decide⟩

/-- C4, amended: when the replay runs and the captured message is successfully
reconstructed, the caller receives the original submission error whatever the
instrumented executor does, and an executor failure is only reported as a
"Debug failed" message; but a failure to reconstruct the message from its
serialized form aborts the call with that error instead of the original one. -/
theorem C4_replay_keeps_error (env : Env) (config : Config) (addr : String)
    (ns : Nat) (m ab acc cb ca : String) (ce : ClientError)
    (hd : config.debug_fail = true)
    (hasync : config.async_call = false)
    (hla : env.loadAbi = Except.ok ())
    (hn : env.now = Except.ok ns)
    (hp : env.prepareMessageParams (compose_header config ns env.now_ms) = Except.ok ())
    (henc : env.encodeMessage = Except.ok m)
    (hem : config.local_run = true → (emulate_locally env addr m false).1 = Except.ok ())
    (hq : env.queryAccountBoc addr = Except.ok ab)
    (hca : env.constructAccount ab = Except.ok acc)
    (hqc : env.queryAccountBoc CONFIG_ADDR = Except.ok cb)
    (hcc : env.constructConfigAccount cb = Except.ok ca)
    (hbc : env.constructBlockchainConfig ca = Except.ok ())
    (herr : env.processMessage = Except.error ce)
    (hcode : ce.code = SDK_EXECUTION_ERROR_CODE)
    (hcm : env.constructMessage m = Except.ok ()) :
    resultOf (call_contract_with_client env config addr false) =
      some (Except.error ce.display) ∧
    (config.is_json = false → ∀ s, env.replayExecute = Except.error s →
      Event.printed ("Debug failed: " ++ s) ∈
        traceOf (call_contract_with_client env config addr false)) := by
  cases hl : config.local_run with
  | false =>
    constructor
    · simp [call_contract_with_client, after_encode, finish_call, run_process,
        hd, hasync, hla, hn, hp, henc, hq, hca, hqc, hcc, hbc, herr, hcode, hcm, hl,
        resultOf]
    · intro hj s hre
      simp [call_contract_with_client, after_encode, finish_call, run_process,
        hd, hasync, hla, hn, hp, henc, hq, hca, hqc, hcc, hbc, herr, hcode, hcm, hl,
        hj, hre, traceOf]
  | true =>
    have he := hem hl
    constructor
    · simp [call_contract_with_client, after_encode, finish_call, run_process,
        hd, hasync, hla, hn, hp, henc, hq, hca, hqc, hcc, hbc, herr, hcode, hcm, hl,
        he, resultOf]
    · intro hj s hre
      simp [call_contract_with_client, after_encode, finish_call, run_process,
        hd, hasync, hla, hn, hp, henc, hq, hca, hqc, hcc, hbc, herr, hcode, hcm, hl,
        he, hj, hre, traceOf]

/-- C4, witness for `C4_replay_keeps_error`: the executor fails with
"vm trap", the caller still gets the original "ORIG" error and the trace
reports the executor failure. -/
theorem C4_witness :
    resultOf (call_contract_with_client envReplayFails cfgDbg "ADDR" false) =
      some (Except.error "ORIG") ∧
    (cfgDbg.is_json = false → ∀ s, envReplayFails.replayExecute = Except.error s →
      Event.printed ("Debug failed: " ++ s) ∈
        traceOf (call_contract_with_client envReplayFails cfgDbg "ADDR" false)) :=
  C4_replay_keeps_error envReplayFails cfgDbg "ADDR" 1700000000 "MSGB64" "ACCBOC"
    "ACCBOC" "ACCBOC" "ACCBOC" ⟨SDK_EXECUTION_ERROR_CODE, "ORIG"⟩
    rfl rfl rfl rfl rfl rfl (fun h => absurd h (by decide)) rfl rfl rfl rfl rfl rfl rfl rfl

/-- C5, counterexample: an array argument of signed-integer type is passed
through as the raw string, with no element-wise token conversion, so the
claim's "every array argument of integer type" fails for `int` arrays. -/
theorem C5_counterexample :
    convert_input_value (ParamType.array (ParamType.int 8)) "[1T]" =
      Except.ok (JValue.str "[1T]") ∧
    convert_input_value (ParamType.array (ParamType.int 8)) "[1T]" ≠
      Except.ok (JValue.arr ["1000000000"]) := by
  refine ⟨by decide, by decide⟩

/-- C5, amended: scalar integer arguments (unsigned and signed) with the `T`
suffix are rescaled exactly by 1_000_000_000; arrays of unsigned-integer type
get the same conversion element-wise with `,`/`[`/`]` delimiters; arrays of
signed-integer type are passed through without conversion. -/
theorem C5_token_conversion (n : Nat) :
    parse_integer_param "1T" = Except.ok "1000000000" ∧
    convert_input_value (ParamType.uint n) "1T" = Except.ok (JValue.str "1000000000") ∧
    convert_input_value (ParamType.int n) "1T" = Except.ok (JValue.str "1000000000") ∧
    convert_input_value (ParamType.array (ParamType.uint n)) "[1T,2T]" =
      Except.ok (JValue.arr ["1000000000", "2000000000"]) ∧
    (∀ v, convert_input_value (ParamType.array (ParamType.int n)) v =
      Except.ok (JValue.str v)) := by
  refine ⟨by decide, ?_, ?_, ?_, ?_⟩
  · simp only [convert_input_value]
    decide
  · simp only [convert_input_value]
    decide
  · simp only [convert_input_value]
    decide
  · intro v
    simp [convert_input_value]

/-- C5, witness: `C5_token_conversion` applied at a concrete size. -/
theorem C5_witness :
    convert_input_value (ParamType.array (ParamType.uint 64)) "[1T,2T]" =
      Except.ok (JValue.arr ["1000000000", "2000000000"]) :=
  (C5_token_conversion 64).2.2.2.1

/-- C6, counterexample: with a consistent clock (`now` in seconds, `now_ms`
in milliseconds), the header has `expire = now + lifetime` in seconds and
`time = now_ms` in milliseconds, so the raw field comparison
`expire > time` is false. -/
theorem C6_counterexample :
    (compose_header cfgDefault 1700000000 1700000000000).expire = some 1700000060 ∧
    (compose_header cfgDefault 1700000000 1700000000000).time = some 1700000000000 ∧
    ¬ (1700000060 > 1700000000000) := by
  refine ⟨by decide, by decide, by decide⟩

/-- C6, amended: `expire` equals `now() + lifetime` as composed, and the
invariant `expire > time` only holds after converting to a common unit:
for any positive lifetime, `1000 * expire > time` (milliseconds), while the
raw field comparison fails because `time` is in milliseconds. -/
theorem C6_expire_formula (config : Config) (ns ms : Nat)
    (hclock : 1000 * ns ≤ ms ∧ ms < 1000 * ns + 1000)
    (hL : 0 < config.lifetime) :
    (compose_header config ns ms).expire = some (config.lifetime + ns) ∧
    (∀ e t, (compose_header config ns ms).expire = some e →
      (compose_header config ns ms).time = some t → 1000 * e > t) := by
  constructor
  · rfl
  · intro e t he ht
    simp [compose_header] at he ht
    omega

/-- C6, witness for `C6_expire_formula` at a concrete consistent clock. -/
theorem C6_witness :
    (compose_header cfgDefault 1700000000 1700000000500).expire =
      some (cfgDefault.lifetime + 1700000000) ∧
    (∀ e t, (compose_header cfgDefault 1700000000 1700000000500).expire = some e →
      (compose_header cfgDefault 1700000000 1700000000500).time = some t →
        1000 * e > t) :=
  C6_expire_formula cfgDefault 1700000000 1700000000500 (by constructor <;> decide)
    (by decide)

/-- C7: when the account state cannot be fetched, fee mode synthesizes a dummy
account (given the address decodes and serializes) and runs the executor on
it, while non-fee mode returns the fetch error without ever invoking the
executor. -/
theorem C7_absent_account (env : Env) (addr msg : String) (err a dummy : String)
    (hq : env.queryAccountBoc addr = Except.error err)
    (hpa : env.parseMsgAddress addr = Except.ok a)
    (hse : env.serializeDummyAccount a = Except.ok dummy) :
    (Event.runExecutor dummy (some true) ∈ (emulate_locally env addr msg true).2 ∧
     ∀ fees, env.runExecutor msg dummy (some true) = Except.ok fees →
       (emulate_locally env addr msg true).1 = Except.ok ()) ∧
    ((emulate_locally env addr msg false).1 = Except.error err ∧
     ∀ b u, Event.runExecutor b u ∉ (emulate_locally env addr msg false).2) := by
  refine ⟨⟨?_, ?_⟩, ?_, ?_⟩
  · unfold emulate_locally
    simp only [hq, hpa, hse]
    cases hx : env.runExecutor msg dummy (some true) <;> simp [hx, feeLines]
  · intro fees hr
    simp [emulate_locally, hq, hpa, hse, hr]
  · simp [emulate_locally, hq]
  · intro b u
    simp [emulate_locally, hq]

/-- C7, witness for `C7_absent_account` at a concrete absent account. -/
theorem C7_witness :
    (Event.runExecutor "DUMMYBOC" (some true) ∈
        (emulate_locally envNoAcc "ADDR" "MSG" true).2 ∧
     ∀ fees, envNoAcc.runExecutor "MSG" "DUMMYBOC" (some true) = Except.ok fees →
       (emulate_locally envNoAcc "ADDR" "MSG" true).1 = Except.ok ()) ∧
    ((emulate_locally envNoAcc "ADDR" "MSG" false).1 =
        Except.error "account not found" ∧
     ∀ b u, Event.runExecutor b u ∉ (emulate_locally envNoAcc "ADDR" "MSG" false).2) :=
  C7_absent_account envNoAcc "ADDR" "MSG" "account not found" "ADDR" "DUMMYBOC"
    rfl rfl rfl

/-- C8: with `async_call`, the confirmation waiter (`wait_for_transaction`)
is never invoked on any path, and once submission is accepted the call
returns the empty outcome immediately. -/
theorem C8_async (env : Env) (config : Config) (addr : String) (is_fee : Bool)
    (ha : config.async_call = true) :
    Event.waitForTransaction ∉ traceOf (call_contract_with_client env config addr is_fee) ∧
    (∀ ns m shard, is_fee = false →
      env.loadAbi = Except.ok () →
      env.now = Except.ok ns →
      env.prepareMessageParams (compose_header config ns env.now_ms) = Except.ok () →
      env.encodeMessage = Except.ok m →
      (config.local_run = true → (emulate_locally env addr m false).1 = Except.ok ()) →
      env.sendMessage m = Except.ok shard →
      resultOf (call_contract_with_client env config addr is_fee) =
        some (Except.ok Value.emptyObj)) := by
  constructor
  · unfold call_contract_with_client after_encode
    dsimp only
    repeat' split
    all_goals simp_all [wait_not_mem_emulate, smw_async_no_wait, traceOf_some, traceOf_none]
  · intro ns m shard hfee hla hn hp henc hem hsend
    subst hfee
    have hsmw : send_message_and_wait env config m =
        (Except.ok Value.emptyObj,
          (if !config.is_json then [Event.printed "Processing... "] else []) ++
            [Event.sendMessage]) := by
      simp [send_message_and_wait, hsend, ha]
    cases hl : config.local_run with
    | false =>
      simp [call_contract_with_client, after_encode, hla, hn, hp, henc, ha, hl, hsmw,
        resultOf]
    | true =>
      have he := hem hl
      simp [call_contract_with_client, after_encode, hla, hn, hp, henc, ha, hl, hsmw,
        resultOf]
      cases hx : (emulate_locally env addr m false).1 with
      | error e => rw [hx] at he; exact absurd he (by simp)
      | ok u => simp [hx]

/-- C8, witness: concrete async call returning the empty outcome with no
confirmation wait. -/
theorem C8_witness :
    Event.waitForTransaction ∉
      traceOf (call_contract_with_client okEnv cfgAsync "ADDR" false) ∧
    resultOf (call_contract_with_client okEnv cfgAsync "ADDR" false) =
      some (Except.ok Value.emptyObj) :=
  ⟨(C8_async okEnv cfgAsync "ADDR" false rfl).1,
   (C8_async okEnv cfgAsync "ADDR" false rfl).2 1700000000 "MSGB64" "SHARD"
     rfl rfl rfl rfl rfl (fun h => absurd h (by decide)) rfl⟩

/-- C9: whenever the emulator invokes the single-transaction executor, the
`unlimited_balance` argument is `Some(true)` exactly in fee mode and `None`
otherwise. -/
theorem C9_unlimited_balance (env : Env) (addr msg : String) (is_fee : Bool)
    (b : String) (u : Option Bool)
    (h : Event.runExecutor b u ∈ (emulate_locally env addr msg is_fee).2) :
    u = if is_fee then some true else none := by
  unfold emulate_locally at h
  dsimp only at h
  repeat' split at h
  all_goals simp_all [feeLines]

/-- C9, witness: a concrete fee-mode emulation invoking the executor with
`Some(true)`. -/
theorem C9_witness :
    Event.runExecutor "ACCBOC" (some true) ∈ (emulate_locally okEnv "A" "M" true).2 ∧
    (some true : Option Bool) = (if true then some true else none) :=
  ⟨by decide, C9_unlimited_balance okEnv "A" "M" true "ACCBOC" (some true) (by decide)⟩

/-- C10: the call never panics: the `message.unwrap()` and `dump.unwrap()`
of the source are always reached with `Some` values, so the embedded function
always returns a result, for every environment and flag combination. -/
theorem C10_no_panic (env : Env) (config : Config) (addr : String) (is_fee : Bool) :
    (call_contract_with_client env config addr is_fee).isSome = true := by
  unfold call_contract_with_client after_encode
  dsimp only
  repeat' split
  all_goals simp_all [finish_call_isSome]

/-- C10, witness: `C10_no_panic` at a concrete debug-mode failing run. -/
theorem C10_witness :
    (call_contract_with_client envReplayFails cfgDbg "ADDR" false).isSome = true :=
  C10_no_panic envReplayFails cfgDbg "ADDR" false

end EvsCall
